import Mathlib

/-!
Verification development for the `today` CLI: a shallow embedding in Lean 4
of the provider resolver (`llm.ts`), the settings store (`config.ts`,
`config-manager.ts`), the output writer (`file.ts`) and the main command
(`commands/default.ts`), together with theorems settling the frozen claims
about these components.

Network effects (HTTP probes, text generation) are modelled by an explicit
`World` oracle; JavaScript strings are Lean `String`s; thrown errors are
`Except.error`; JavaScript object mutation through aliased references is
made explicit by returning the post-call state of the mutated input.
-/

namespace Today

/-- The fixed enumerated provider set (`Provider` in `config.ts`). -/
inductive Provider where
  | ollama
  | lmstudio
  | openai
  | openrouter
deriving DecidableEq, Repr

/-- The `provider` settings field: a concrete provider or the sentinel
`"auto"` (`ProviderOrAuto` in `config.ts`). -/
inductive ProviderOrAuto where
  | auto
  | prov (p : Provider)
deriving DecidableEq, Repr

/-- The `models` mapping of `Settings`: one model identifier per known
provider. -/
structure Models where
  ollama : String
  lmstudio : String
  openai : String
  openrouter : String
deriving DecidableEq, Repr

/-- The `hosts` mapping of `Settings`: base URLs, only for the host-based
providers. -/
structure Hosts where
  ollama : String
  lmstudio : String
deriving DecidableEq, Repr

/-- The `apiKeys` mapping of `Settings`: secrets, only for the key-based
providers. -/
structure ApiKeys where
  openai : String
  openrouter : String
deriving DecidableEq, Repr

/-- The persisted `Settings` record of `config.ts`. -/
structure Settings where
  provider : ProviderOrAuto
  models : Models
  hosts : Hosts
  apiKeys : ApiKeys
  outputFile : String
  systemPrompt : Option String
deriving DecidableEq, Repr

/-- One entry of `PROVIDER_META` in `config.ts` (the fields the resolver
uses). -/
structure ProviderMeta where
  label : String
  displayName : String
  hasHost : Bool
  hasApiKey : Bool
  defaultHost : String
  defaultModel : String
deriving DecidableEq, Repr

/-- `PROVIDER_META` from `config.ts`. -/
def PROVIDER_META : Provider → ProviderMeta
  | .ollama =>
      { label := "ollama", displayName := "Ollama", hasHost := true,
        hasApiKey := false, defaultHost := "http://localhost:11434",
        defaultModel := "llama3.2" }
  | .lmstudio =>
      { label := "lmstudio", displayName := "LM Studio", hasHost := true,
        hasApiKey := false, defaultHost := "http://localhost:1234",
        defaultModel := "local-model" }
  | .openai =>
      { label := "openai", displayName := "OpenAI", hasHost := false,
        hasApiKey := true, defaultHost := "",
        defaultModel := "gpt-4o-mini" }
  | .openrouter =>
      { label := "openrouter", displayName := "OpenRouter", hasHost := false,
        hasApiKey := true, defaultHost := "",
        defaultModel := "google/gemini-flash-1.5" }

/-- `DEFAULT_SETTINGS` from `config.ts`. -/
def DEFAULT_SETTINGS : Settings :=
  { provider := .auto,
    models :=
      { ollama := (PROVIDER_META .ollama).defaultModel,
        lmstudio := (PROVIDER_META .lmstudio).defaultModel,
        openai := (PROVIDER_META .openai).defaultModel,
        openrouter := (PROVIDER_META .openrouter).defaultModel },
    hosts :=
      { ollama := (PROVIDER_META .ollama).defaultHost,
        lmstudio := (PROVIDER_META .lmstudio).defaultHost },
    apiKeys := { openai := "", openrouter := "" },
    outputFile := "./today.txt",
    systemPrompt := none }

/-- Lookup `models[provider]`. -/
def Models.get (ms : Models) : Provider → String
  | .ollama => ms.ollama
  | .lmstudio => ms.lmstudio
  | .openai => ms.openai
  | .openrouter => ms.openrouter

/-- Lookup `settings.models[provider]`. -/
def modelsGet (s : Settings) (p : Provider) : String :=
  s.models.get p

/-- Lookup `settings.hosts[provider]` (only host-based providers carry a
host; the resolver guards the access with `meta.hasHost`). -/
def hostsGet (s : Settings) : Provider → String
  | .ollama => s.hosts.ollama
  | .lmstudio => s.hosts.lmstudio
  | _ => ""

/-- Character class trimmed by JavaScript `String.prototype.trim` (the
whitespace characters that occur in this program's data). -/
def isJsWS (c : Char) : Bool :=
  c == ' ' || c == '\t' || c == '\n' || c == '\r'

/-- Trimming on character lists: drop whitespace from the front, then from
the back. -/
def trimChars (l : List Char) : List Char :=
  ((l.dropWhile isJsWS).reverse.dropWhile isJsWS).reverse

/-- JavaScript `s.trim()`. -/
def jsTrim (s : String) : String :=
  ⟨trimChars s.data⟩

/-- JavaScript truthiness of a string: every string except `""` is
truthy. -/
def strTruthy (s : String) : Bool :=
  if s = "" then false else true

/-- `DEFAULT_SYSTEM_PROMPT` from `llm.ts`. -/
def DEFAULT_SYSTEM_PROMPT : String :=
  "Refine the user's intention into this exact format:\n\nToday will be a good day if: [one specific outcome]\nI will do this by: [one concrete action]\nEverything else can wait.\n\nBe concise and actionable. Keep it focused on a single goal. It is important that you only output what is defined in the template above without any additional commentary or explanation."

/-- Outcome of the HTTP GET detection probe issued by `detectProvider`:
the response arrived with a success status (`response.ok`), the response
arrived with a non-success status, or `fetch` threw. -/
inductive ProbeResult where
  | ok
  | errStatus
  | netErr
deriving DecidableEq, Repr

/-- A thrown JavaScript error as seen by `formatError`: either an object
carrying a `message` string, or anything else. -/
def JsError := Option String

/-- The external world: the outcome of the detection probe for each
(host, path) pair, and the outcome of `generateText` for each
(provider, model, system prompt, user prompt) tuple. -/
structure World where
  probe : String → String → ProbeResult
  gen : Provider → String → String → String → Except JsError String

/-- One entry of `DETECTION_CONFIG` in `llm.ts`: either an HTTP probe
endpoint or a settings predicate. -/
structure DetectionConfig where
  endpoint : Option String
  check : Option (Settings → Bool)

/-- `DETECTION_CONFIG` from `llm.ts`: host-based providers carry a probe
endpoint; key-based providers carry a key-presence check (`!!key`,
JavaScript truthiness of a string = non-empty). -/
def DETECTION_CONFIG : Provider → DetectionConfig
  | .ollama => ⟨some "/api/tags", none⟩
  | .lmstudio => ⟨some "/v1/models", none⟩
  | .openai => ⟨none, some fun s => strTruthy s.apiKeys.openai⟩
  | .openrouter => ⟨none, some fun s => strTruthy s.apiKeys.openrouter⟩

/-- Iteration order of `Object.entries(DETECTION_CONFIG)`: JavaScript
object insertion order. -/
def detectionOrder : List Provider :=
  [.ollama, .lmstudio, .openai, .openrouter]

/-- Result of `detectProvider`, instrumented with the list of
(host, endpoint) pairs actually probed over the network. -/
structure DetectOut where
  provider : Option Provider
  host : Option String
  probes : List (String × String)
deriving Repr

/-- The loop body of `detectProvider` over the entry list, carrying the
probes issued so far (most recent first; reversed on exit). -/
def detectGo (w : World) (s : Settings) :
    List Provider → List (String × String) → DetectOut
  | [], probes => ⟨none, none, probes.reverse⟩
  | p :: rest, probes =>
    match (DETECTION_CONFIG p).endpoint with
    | some ep =>
      if (PROVIDER_META p).hasHost then
        let host := hostsGet s p
        match w.probe host ep with
        | .ok => ⟨some p, some host, ((host, ep) :: probes).reverse⟩
        | _ => detectGo w s rest ((host, ep) :: probes)
      else
        detectGo w s rest probes
    | none =>
      match (DETECTION_CONFIG p).check with
      | some chk =>
        if chk s then ⟨some p, none, probes.reverse⟩
        else detectGo w s rest probes
      | none => detectGo w s rest probes

/-- `detectProvider` from `llm.ts`, instrumented with the probe trace. -/
def detectProviderT (w : World) (s : Settings) : DetectOut :=
  detectGo w s detectionOrder []

/-- The effective system instruction:
`settings.systemPrompt || DEFAULT_SYSTEM_PROMPT` (JavaScript `||`: both
`null` and the empty string fall back to the default). -/
def effSystem (s : Settings) : String :=
  match s.systemPrompt with
  | some sp => if strTruthy sp then sp else DEFAULT_SYSTEM_PROMPT
  | none => DEFAULT_SYSTEM_PROMPT

/-- `generate` from `llm.ts`: one `generateText` call through the selected
provider's model, returning `text.trim()`. -/
def generate (w : World) (p : Provider) (s : Settings)
    (userInput : String) : Except JsError String :=
  (w.gen p (modelsGet s p) (effSystem s) userInput).map jsTrim

/-- `formatError` from `llm.ts`. -/
def formatError (error : JsError) (provider : String) : String :=
  match error with
  | some m => provider ++ " error: " ++ m
  | none => provider ++ " error: Unknown error occurred"

/-- The success value of `refineIntention`. -/
structure RefineResult where
  refined : String
  provider : Option String
deriving DecidableEq, Repr

/-- `tryProvider` from `llm.ts`: `.ok (some r)` is a returned result,
`.ok none` is the caught-and-logged `null` return (auto mode), `.error`
is a thrown provider-qualified error (explicit mode). -/
def tryProvider (w : World) (p : Provider) (s : Settings)
    (userInput : String) (throwOnError : Bool) :
    Except String (Option RefineResult) :=
  match generate w p s userInput with
  | .ok refined => .ok (some ⟨refined, some (PROVIDER_META p).label⟩)
  | .error e =>
    if throwOnError then .error (formatError e (PROVIDER_META p).displayName)
    else .ok none

/-- The uniform exhaustion error thrown at the end of `refineIntention`. -/
def noProviderMsg : String :=
  "No LLM provider available. Please configure a provider or check your settings."

/-- Result of `refineIntention`, instrumented with the ordered list of
providers through which generation was attempted and the number of
detection scans run. -/
structure RunOut where
  res : Except String RefineResult
  genAttempts : List Provider
  detectScans : Nat
deriving Repr

/-- The detection-and-fallback tail of `refineIntention` (everything after
the explicit-provider block), with `acc` the generation attempts already
made. -/
def autoScan (w : World) (userInput : String) (s : Settings)
    (acc : List Provider) : RunOut :=
  match (detectProviderT w s).provider with
  | some p =>
    match tryProvider w p s userInput false with
    | .ok (some r) => ⟨.ok r, acc ++ [p], 1⟩
    | _ => ⟨.error noProviderMsg, acc ++ [p], 1⟩
  | none => ⟨.error noProviderMsg, acc, 1⟩

/-- `refineIntention` from `llm.ts`, instrumented: explicit mode tries the
chosen provider once with `throwOnError = true`; otherwise one detection
scan runs and the first detected provider (if any) is tried once with
`throwOnError = false`; exhaustion throws `noProviderMsg`. -/
def refineIntentionT (w : World) (userInput : String) (s : Settings) :
    RunOut :=
  match s.provider with
  | .prov p =>
    match tryProvider w p s userInput true with
    | .error e => ⟨.error e, [p], 0⟩
    | .ok (some r) => ⟨.ok r, [p], 0⟩
    | .ok none => autoScan w userInput s [p]
  | .auto => autoScan w userInput s []

/-- The un-instrumented result of `refineIntention`. -/
def refineIntention (w : World) (userInput : String) (s : Settings) :
    Except String RefineResult :=
  (refineIntentionT w userInput s).res

/-- `RuntimeOverrides` from `config-manager.ts`: optional provider and/or
model supplied via command-line flags. -/
structure RuntimeOverrides where
  provider : Option ProviderOrAuto
  model : Option String
deriving DecidableEq, Repr

/-- JavaScript truthiness of `overrides.provider`: present (every provider
name string, including `"auto"`, is non-empty hence truthy). -/
def ovProviderTruthy (ov : RuntimeOverrides) : Bool :=
  ov.provider.isSome

/-- JavaScript truthiness of `overrides.model`: present and non-empty. -/
def ovModelTruthy (ov : RuntimeOverrides) : Bool :=
  match ov.model with
  | some m => strTruthy m
  | none => false

/-- Write `models[p] := v` (the write through `merged.models`, which is the
same object as `config.models` after the shallow copy). -/
def modelsSet (ms : Models) (p : Provider) (v : String) : Models :=
  match p with
  | .ollama => { ms with ollama := v }
  | .lmstudio => { ms with lmstudio := v }
  | .openai => { ms with openai := v }
  | .openrouter => { ms with openrouter := v }

/-- `applyOverrides` from `config-manager.ts`. `const merged = {...config}`
copies only the top level, so `merged.models` aliases `config.models`; the
assignment `merged.models[merged.provider] = overrides.model` therefore
also mutates the caller's `config`. The embedding returns the pair
(returned `merged` value, post-call state of the `config` argument). -/
def applyOverrides (config : Settings) (overrides : RuntimeOverrides) :
    Settings × Settings :=
  let mergedProvider :=
    if ovProviderTruthy overrides then overrides.provider.getD config.provider
    else config.provider
  match mergedProvider with
  | .prov p =>
    if ovModelTruthy overrides then
      let models := modelsSet config.models p (overrides.model.getD "")
      ({ config with provider := .prov p, models := models },
       { config with models := models })
    else
      ({ config with provider := .prov p }, config)
  | .auto =>
    ({ config with provider := .auto }, config)

/-- The persisted `models` object of a stored settings file: each
per-provider key may be absent. -/
structure PartialModels where
  ollama : Option String
  lmstudio : Option String
  openai : Option String
  openrouter : Option String
deriving DecidableEq, Repr

/-- The persisted `hosts` object of a stored settings file. -/
structure PartialHosts where
  ollama : Option String
  lmstudio : Option String
deriving DecidableEq, Repr

/-- The persisted `apiKeys` object of a stored settings file. -/
structure PartialApiKeys where
  openai : Option String
  openrouter : Option String
deriving DecidableEq, Repr

/-- The top level of a parsed settings file: every top-level key may be
absent, and the nested objects may themselves be partial. -/
structure StoredTop where
  provider : Option ProviderOrAuto
  models : Option PartialModels
  hosts : Option PartialHosts
  apiKeys : Option PartialApiKeys
  outputFile : Option String
  systemPrompt : Option (Option String)
deriving DecidableEq, Repr

/-- The on-disk settings file: absent, unparseable JSON, or a parsed
object. -/
inductive ConfigFile where
  | missing
  | malformed
  | content (t : StoredTop)
deriving DecidableEq, Repr

/-- The runtime value produced by `loadConfig`: top-level fields are always
present (backfilled from `DEFAULT_SETTINGS` by the spread), but a nested
object taken from the file is kept exactly as stored, possibly partial. -/
structure LoadedSettings where
  provider : ProviderOrAuto
  models : PartialModels
  hosts : PartialHosts
  apiKeys : PartialApiKeys
  outputFile : String
  systemPrompt : Option String
deriving DecidableEq, Repr

/-- View a full `Models` value as the runtime object with every key
present. -/
def Models.toPartial (ms : Models) : PartialModels :=
  ⟨some ms.ollama, some ms.lmstudio, some ms.openai, some ms.openrouter⟩

/-- View a full `Hosts` value as the runtime object with every key
present. -/
def Hosts.toPartial (hs : Hosts) : PartialHosts :=
  ⟨some hs.ollama, some hs.lmstudio⟩

/-- View a full `ApiKeys` value as the runtime object with every key
present. -/
def ApiKeys.toPartial (ks : ApiKeys) : PartialApiKeys :=
  ⟨some ks.openai, some ks.openrouter⟩

/-- View a full `Settings` value as the runtime value it denotes. -/
def Settings.toLoaded (s : Settings) : LoadedSettings :=
  ⟨s.provider, s.models.toPartial, s.hosts.toPartial, s.apiKeys.toPartial,
   s.outputFile, s.systemPrompt⟩

/-- `JSON.stringify` of a full `Settings` value followed by `file.json()`:
every top-level key present, nested objects complete. -/
def storedOf (s : Settings) : StoredTop :=
  ⟨some s.provider, some s.models.toPartial, some s.hosts.toPartial,
   some s.apiKeys.toPartial, some s.outputFile, some s.systemPrompt⟩

/-- `saveConfig` from `config.ts`: writes `JSON.stringify(settings)` as the
whole settings file. -/
def saveConfig (s : Settings) : ConfigFile :=
  .content (storedOf s)

/-- `loadConfig` from `config.ts`: defaults when the file is absent or
unparseable, else `{ ...DEFAULT_SETTINGS, ...content }` — a shallow merge
replacing whole top-level fields only. -/
def loadConfig (file : ConfigFile) : LoadedSettings :=
  match file with
  | .missing => DEFAULT_SETTINGS.toLoaded
  | .malformed => DEFAULT_SETTINGS.toLoaded
  | .content t =>
    { provider := t.provider.getD DEFAULT_SETTINGS.provider,
      models := t.models.getD DEFAULT_SETTINGS.models.toPartial,
      hosts := t.hosts.getD DEFAULT_SETTINGS.hosts.toPartial,
      apiKeys := t.apiKeys.getD DEFAULT_SETTINGS.apiKeys.toPartial,
      outputFile := t.outputFile.getD DEFAULT_SETTINGS.outputFile,
      systemPrompt := t.systemPrompt.getD DEFAULT_SETTINGS.systemPrompt }

/-- `writeTodayFile` from `file.ts`, with the current date and the existing
file content (`readTodayFile` yields `""` for a missing file) made
explicit. A new entry is `## <date>\n<refinedText>\n\n`; a non-empty
existing file is prepended to, an empty one receives the trimmed entry. -/
def writeTodayFile (refinedText : String) (date : String)
    (existing : String) : String :=
  let newEntry := "## " ++ date ++ "\n" ++ refinedText ++ "\n\n"
  if strTruthy existing then newEntry ++ existing else jsTrim newEntry

/-- Result of one run of the main command body. -/
structure CommandOut where
  exitCode : Nat
  file : String
  refineCalled : Bool
deriving DecidableEq, Repr

/-- The body of `defaultCommand` in `commands/default.ts` from the input
prompt onward: empty (after trimming) input is a no-op success; otherwise
`refineIntention` runs and only on success is `writeTodayFile` called; a
thrown error leads to `process.exit(1)` with the file untouched. -/
def defaultCommand (w : World) (config : Settings) (input : String)
    (date : String) (file : String) : CommandOut :=
  if strTruthy (jsTrim input) then
    match refineIntention w input config with
    | .ok r => ⟨0, writeTodayFile r.refined date file, true⟩
    | .error _ => ⟨1, file, true⟩
  else ⟨0, file, false⟩

/-- Lines of a character list, splitting at every newline character. -/
def splitLinesAux : List Char → List Char → List (List Char)
  | [], acc => [acc.reverse]
  | c :: rest, acc =>
    if c = '\n' then acc.reverse :: splitLinesAux rest []
    else splitLinesAux rest (c :: acc)

/-- Lines of a string. -/
def linesOf (s : String) : List (List Char) :=
  splitLinesAux s.data []

/-- A character list of the shape `YYYY-MM-DD`. -/
def isDateL : List Char → Bool
  | [y1, y2, y3, y4, s1, m1, m2, s2, d1, d2] =>
    y1.isDigit && y2.isDigit && y3.isDigit && y4.isDigit && s1 == '-' &&
    m1.isDigit && m2.isDigit && s2 == '-' && d1.isDigit && d2.isDigit
  | _ => false

/-- A dated header line of the form `## YYYY-MM-DD`. -/
def isHeaderLine : List Char → Bool
  | '#' :: '#' :: ' ' :: rest => isDateL rest
  | _ => false

/-- Number of dated header lines in a file. -/
def headerCount (s : String) : Nat :=
  (linesOf s).countP isHeaderLine

/-- A world in which every probe fails with a network error and every
generation call throws an error object with message `"boom"`. -/
def wFail : World :=
  { probe := fun _ _ => .netErr, gen := fun _ _ _ _ => .error (some "boom") }

/-- A world in which the Ollama host probe succeeds and generation returns
a padded text. -/
def wOllamaOk : World :=
  { probe := fun h _ => if h == "http://localhost:11434" then .ok else .netErr,
    gen := fun _ _ _ _ => .ok "  refined text  " }

/-- The default settings with provider explicitly set to `openai` (and the
default empty `apiKeys.openai`). -/
def sOpenAIExplicit : Settings :=
  { DEFAULT_SETTINGS with provider := .prov .openai }

end Today

namespace Today

/-- The generation attempts recorded by the detection-and-fallback tail:
whatever was already attempted, plus the detected provider when there is
one. -/
theorem autoScan_genAttempts (w : World) (userInput : String) (s : Settings)
    (acc : List Provider) :
    (autoScan w userInput s acc).genAttempts
      = acc ++ (detectProviderT w s).provider.toList := by
  unfold autoScan
  cases hd : (detectProviderT w s).provider with
  | none => simp
  | some p =>
    cases htp : tryProvider w p s userInput false with
    | error e => simp [htp]
    | ok r => cases r <;> simp [htp]

/-- The detection-and-fallback tail runs exactly one detection scan. -/
theorem autoScan_detectScans (w : World) (userInput : String) (s : Settings)
    (acc : List Provider) :
    (autoScan w userInput s acc).detectScans = 1 := by
  unfold autoScan
  cases hd : (detectProviderT w s).provider with
  | none => simp
  | some p =>
    cases htp : tryProvider w p s userInput false with
    | error e => simp [htp]
    | ok r => cases r <;> simp [htp]

/-- When nothing is detected, or the detected provider's generation call
throws, the detection-and-fallback tail surfaces the uniform exhaustion
error. -/
theorem autoScan_res_fail (w : World) (userInput : String) (s : Settings)
    (acc : List Provider)
    (hfail : ∀ p, (detectProviderT w s).provider = some p →
      ∃ e, w.gen p (s.models.get p) (effSystem s) userInput = .error e) :
    (autoScan w userInput s acc).res = .error noProviderMsg := by
  unfold autoScan
  cases hd : (detectProviderT w s).provider with
  | none => simp
  | some p =>
    obtain ⟨e, he⟩ := hfail p hd
    simp [tryProvider, generate, modelsGet, he, Except.map]

/-- Dropping while a predicate holds leaves a list whose head already
fails the predicate untouched, also after appending. -/
theorem dropWhile_append_of_fixed (p : Char → Bool) (a b : List Char)
    (ha : a.dropWhile p = a) (hne : a ≠ []) :
    (a ++ b).dropWhile p = a ++ b := by
  rw [List.dropWhile_append, ha]
  simp [List.isEmpty_iff, hne]

/-- Splitting a character list into lines distributes over an explicit
newline: everything before it forms the leading lines, everything after
it is split afresh. -/
theorem splitLinesAux_append (a : List Char) :
    ∀ (acc b : List Char),
      splitLinesAux (a ++ '\n' :: b) acc
        = splitLinesAux a acc ++ splitLinesAux b [] := by
  induction a with
  | nil => intro acc b; simp [splitLinesAux]
  | cons c a' ih =>
    intro acc b
    by_cases hc : c = '\n'
    · subst hc
      simp [splitLinesAux, ih]
    · simp [splitLinesAux, hc, ih]

/-- A character list without newlines is a single line. -/
theorem splitLinesAux_no_newline (a : List Char) :
    ∀ acc, '\n' ∉ a → splitLinesAux a acc = [acc.reverse ++ a] := by
  induction a with
  | nil => intro acc _; simp [splitLinesAux]
  | cons c a' ih =>
    intro acc h
    have hc : ¬ c = '\n' := fun hh => h (hh ▸ List.mem_cons_self c a')
    have htl : '\n' ∉ a' := fun hh => h (List.mem_cons_of_mem c hh)
    simp [splitLinesAux, hc, ih (c :: acc) htl]

/-- A date-shaped character list contains no newline. -/
theorem isDateL_no_newline (d : List Char) (h : isDateL d = true) :
    '\n' ∉ d := by
  rcases d with _ | ⟨c1, _ | ⟨c2, _ | ⟨c3, _ | ⟨c4, _ | ⟨c5, _ | ⟨c6,
    _ | ⟨c7, _ | ⟨c8, _ | ⟨c9, _ | ⟨c10, _ | ⟨c11, d⟩⟩⟩⟩⟩⟩⟩⟩⟩⟩⟩ <;>
    simp only [isDateL, Bool.and_eq_true, beq_iff_eq] at h <;>
    try exact absurd h (by decide)
  obtain ⟨⟨⟨⟨⟨⟨⟨⟨⟨h1, h2⟩, h3⟩, h4⟩, h5⟩, h6⟩, h7⟩, h8⟩, h9⟩, h10⟩ := h
  intro hmem
  simp only [List.mem_cons, List.not_mem_nil, or_false] at hmem
  rcases hmem with rfl | rfl | rfl | rfl | rfl | rfl | rfl | rfl | rfl | rfl
  · exact absurd h1 (by decide)
  · exact absurd h2 (by decide)
  · exact absurd h3 (by decide)
  · exact absurd h4 (by decide)
  · exact absurd h5 (by decide)
  · exact absurd h6 (by decide)
  · exact absurd h7 (by decide)
  · exact absurd h8 (by decide)
  · exact absurd h9 (by decide)
  · exact absurd h10 (by decide)

/-- Trimming the freshly formatted entry `## <date>\n<text>\n\n` removes
exactly the trailing blank lines when the text itself has no trailing
whitespace. -/
theorem trimChars_entry (d t : List Char)
    (ht : t.reverse.dropWhile isJsWS = t.reverse) (htne : t ≠ []) :
    trimChars (('#' :: '#' :: ' ' :: (d ++ '\n' :: t)) ++ ['\n', '\n'])
      = '#' :: '#' :: ' ' :: (d ++ '\n' :: t) := by
  have hfront :
      (('#' :: '#' :: ' ' :: (d ++ '\n' :: t)) ++ ['\n', '\n']).dropWhile isJsWS
        = ('#' :: '#' :: ' ' :: (d ++ '\n' :: t)) ++ ['\n', '\n'] := by
    simp [List.dropWhile_cons, isJsWS]
  have hrevne : t.reverse ≠ [] := by
    simpa using htne
  unfold trimChars
  rw [hfront]
  rw [show (('#' :: '#' :: ' ' :: (d ++ '\n' :: t)) ++ ['\n', '\n']).reverse
      = '\n' :: '\n' ::
        (t.reverse ++ ('\n' :: (d.reverse ++ [' ', '#', '#']))) by
    simp [List.reverse_append]]
  rw [show ('\n' :: '\n' ::
        (t.reverse ++ ('\n' :: (d.reverse ++ [' ', '#', '#'])))).dropWhile
          isJsWS
      = (t.reverse ++ ('\n' :: (d.reverse ++ [' ', '#', '#']))).dropWhile
          isJsWS by
    simp [List.dropWhile_cons, isJsWS]]
  rw [dropWhile_append_of_fixed isJsWS t.reverse _ ht hrevne]
  simp [List.reverse_append]

/-- Writing to a non-empty existing file prepends the new entry. -/
theorem writeTodayFile_nonempty (refinedText date existing : String)
    (he : existing ≠ "") :
    writeTodayFile refinedText date existing
      = ("## " ++ date ++ "\n" ++ refinedText ++ "\n\n") ++ existing := by
  unfold writeTodayFile
  simp [strTruthy, he]

/-- The character data of a freshly formatted entry
`## <date>\n<text>\n\n`. -/
theorem entry_data (d t : String) :
    ("## " ++ d ++ "\n" ++ t ++ "\n\n").data
      = ('#' :: '#' :: ' ' :: (d.data ++ '\n' :: t.data)) ++ ['\n', '\n'] := by
  rw [String.data_append, String.data_append, String.data_append,
    String.data_append]
  show (((['#', '#', ' '] ++ d.data) ++ ['\n']) ++ t.data) ++ ['\n', '\n'] = _
  simp [List.append_assoc]

/-- The character data of a trimmed entry `## <date>\n<text>`. -/
theorem entry_data_trimmed (d t : String) :
    ("## " ++ d ++ "\n" ++ t).data
      = '#' :: '#' :: ' ' :: (d.data ++ '\n' :: t.data) := by
  rw [String.data_append, String.data_append, String.data_append]
  show ((['#', '#', ' '] ++ d.data) ++ ['\n']) ++ t.data = _
  simp [List.append_assoc]

/-- C1: in auto mode, when no provider is detected or the single detected
provider fails generation, `refineIntention` throws an error whose
message contains "No LLM provider available"; exactly one detection scan
runs, and the generation attempts are exactly the detected provider (none
when nothing was detected) — a generation failure after a successful
detection tries no further provider. -/
theorem claim_C1 (w : World) (s : Settings) (userInput : String)
    (hauto : s.provider = .auto) (_hin : userInput ≠ "")
    (hfail : ∀ p, (detectProviderT w s).provider = some p →
      ∃ e, w.gen p (s.models.get p) (effSystem s) userInput = .error e) :
    (∃ pre post, (refineIntentionT w userInput s).res
        = .error (pre ++ "No LLM provider available" ++ post)) ∧
    (refineIntentionT w userInput s).detectScans = 1 ∧
    (refineIntentionT w userInput s).genAttempts
      = (detectProviderT w s).provider.toList := by
  have hrun : refineIntentionT w userInput s = autoScan w userInput s [] := by
    simp [refineIntentionT, hauto]
  refine ⟨⟨"", ". Please configure a provider or check your settings.", ?_⟩,
          ?_, ?_⟩
  · rw [hrun, autoScan_res_fail w userInput s [] hfail]
    rfl
  · rw [hrun, autoScan_detectScans]
  · rw [hrun, autoScan_genAttempts]
    simp

/-- Witness for C1: the default settings (auto mode, empty keys) in a
world where every probe fails — nothing is detected and the call fails
with the exhaustion error after one scan and no generation attempt. -/
theorem claim_C1_witness :
    DEFAULT_SETTINGS.provider = .auto ∧ ("today" : String) ≠ "" ∧
    (∃ pre post, (refineIntentionT wFail "today" DEFAULT_SETTINGS).res
        = .error (pre ++ "No LLM provider available" ++ post)) ∧
    (refineIntentionT wFail "today" DEFAULT_SETTINGS).detectScans = 1 ∧
    (refineIntentionT wFail "today" DEFAULT_SETTINGS).genAttempts
      = (detectProviderT wFail DEFAULT_SETTINGS).provider.toList := by
  have hdet : (detectProviderT wFail DEFAULT_SETTINGS).provider = none := by
    decide
  refine ⟨rfl, by decide, ?_⟩
  exact claim_C1 wFail DEFAULT_SETTINGS "today" rfl (by decide)
    (fun p hp => absurd hp (by rw [hdet]; exact fun h => Option.noConfusion h))

/-- C2: with an explicitly selected concrete provider, generation is
attempted through that provider exactly once and no detection scan runs;
a generation failure surfaces as an error whose message begins with the
provider's display name followed by " error: "; a success returns the
trimmed text together with the provider's canonical label. -/
theorem claim_C2 (w : World) (s : Settings) (userInput : String)
    (p : Provider) (hp : s.provider = .prov p) :
    (refineIntentionT w userInput s).genAttempts = [p] ∧
    (refineIntentionT w userInput s).detectScans = 0 ∧
    (∀ e, w.gen p (s.models.get p) (effSystem s) userInput = .error e →
      ∃ rest, (refineIntentionT w userInput s).res
        = .error ((PROVIDER_META p).displayName ++ " error: " ++ rest)) ∧
    (∀ t, w.gen p (s.models.get p) (effSystem s) userInput = .ok t →
      (refineIntentionT w userInput s).res
        = .ok ⟨jsTrim t, some (PROVIDER_META p).label⟩) := by
  cases hg : w.gen p (s.models.get p) (effSystem s) userInput with
  | error e =>
    have hrun : refineIntentionT w userInput s
        = ⟨.error (formatError e (PROVIDER_META p).displayName), [p], 0⟩ := by
      simp [refineIntentionT, hp, tryProvider, generate, modelsGet, hg,
        Except.map]
    refine ⟨by rw [hrun], by rw [hrun], fun e' he' => ?_, fun t ht => ?_⟩
    · injection he' with h
      subst h
      cases e with
      | some m => exact ⟨m, by rw [hrun]; rfl⟩
      | none =>
        exact ⟨"Unknown error occurred", by rw [hrun, String.append_assoc]; rfl⟩
    · exact Except.noConfusion ht
  | ok t =>
    have hrun : refineIntentionT w userInput s
        = ⟨.ok ⟨jsTrim t, some (PROVIDER_META p).label⟩, [p], 0⟩ := by
      simp [refineIntentionT, hp, tryProvider, generate, modelsGet, hg,
        Except.map]
    refine ⟨by rw [hrun], by rw [hrun], fun e' he' => ?_, fun t' ht' => ?_⟩
    · exact Except.noConfusion he'
    · injection ht' with h
      subst h
      rw [hrun]

/-- Witness for C2: explicit provider `ollama` in the all-failing world
gives a single generation attempt, no detection scan, and an error
message beginning with "Ollama error: ". -/
theorem claim_C2_witness :
    ({ DEFAULT_SETTINGS with provider := .prov .ollama } : Settings).provider
        = .prov .ollama ∧
    (refineIntentionT wFail "today"
        { DEFAULT_SETTINGS with provider := .prov .ollama }).genAttempts
      = [.ollama] ∧
    (refineIntentionT wFail "today"
        { DEFAULT_SETTINGS with provider := .prov .ollama }).detectScans = 0 ∧
    ∃ rest, (refineIntentionT wFail "today"
        { DEFAULT_SETTINGS with provider := .prov .ollama }).res
      = .error ("Ollama" ++ " error: " ++ rest) := by
  have h := claim_C2 wFail
    { DEFAULT_SETTINGS with provider := .prov .ollama } "today" .ollama rfl
  exact ⟨rfl, h.1, h.2.1, h.2.2.1 (some "boom") rfl⟩

/-- Availability of a provider as the spec describes detection: a
host-based provider is detected exactly when the HTTP GET probe to its
configured host's probe path returns a success status; a key-based
provider is detected exactly when its API key in settings is non-empty. -/
def specDetected (w : World) (s : Settings) : Provider → Bool
  | .ollama =>
    match w.probe s.hosts.ollama "/api/tags" with
    | .ok => true
    | _ => false
  | .lmstudio =>
    match w.probe s.hosts.lmstudio "/v1/models" with
    | .ok => true
    | _ => false
  | .openai => strTruthy s.apiKeys.openai
  | .openrouter => strTruthy s.apiKeys.openrouter

/-- C3: detection iterates the fixed order ollama, lmstudio, openai,
openrouter and returns the first provider available in the spec's sense
(probe success for host-based, non-empty key for key-based); the network
calls made during detection are only GETs to the two local hosts' probe
paths (key-based detection is offline); and in auto mode the first
detected provider is the one generation is attempted through. -/
theorem claim_C3 (w : World) (s : Settings) (userInput : String) :
    (detectProviderT w s).provider = detectionOrder.find? (specDetected w s) ∧
    detectionOrder = [.ollama, .lmstudio, .openai, .openrouter] ∧
    (specDetected w s .ollama = true ↔
      w.probe s.hosts.ollama "/api/tags" = .ok) ∧
    (specDetected w s .lmstudio = true ↔
      w.probe s.hosts.lmstudio "/v1/models" = .ok) ∧
    (specDetected w s .openai = true ↔ s.apiKeys.openai ≠ "") ∧
    (specDetected w s .openrouter = true ↔ s.apiKeys.openrouter ≠ "") ∧
    (∀ q ∈ (detectProviderT w s).probes,
      q = (s.hosts.ollama, "/api/tags") ∨
      q = (s.hosts.lmstudio, "/v1/models")) ∧
    (∀ p, s.provider = .auto → (detectProviderT w s).provider = some p →
      (refineIntentionT w userInput s).genAttempts = [p]) := by
  have hlast : ∀ p, s.provider = .auto →
      (detectProviderT w s).provider = some p →
      (refineIntentionT w userInput s).genAttempts = [p] := by
    intro p hauto hdet
    have hrun : refineIntentionT w userInput s = autoScan w userInput s [] := by
      simp [refineIntentionT, hauto]
    rw [hrun, autoScan_genAttempts, hdet]
    rfl
  refine ⟨?_, rfl, ?_, ?_, ?_, ?_, ?_, hlast⟩
  · cases hpo : w.probe s.hosts.ollama "/api/tags" <;>
      cases hpl : w.probe s.hosts.lmstudio "/v1/models" <;>
      by_cases hko : s.apiKeys.openai = "" <;>
      by_cases hkr : s.apiKeys.openrouter = "" <;>
      simp [detectProviderT, detectGo, detectionOrder, DETECTION_CONFIG,
        PROVIDER_META, hostsGet, specDetected, strTruthy, List.find?, hpo,
        hpl, hko, hkr]
  · cases hpo : w.probe s.hosts.ollama "/api/tags" <;> simp [specDetected, hpo]
  · cases hpl : w.probe s.hosts.lmstudio "/v1/models" <;>
      simp [specDetected, hpl]
  · by_cases hko : s.apiKeys.openai = "" <;> simp [specDetected, strTruthy, hko]
  · by_cases hkr : s.apiKeys.openrouter = "" <;>
      simp [specDetected, strTruthy, hkr]
  · cases hpo : w.probe s.hosts.ollama "/api/tags" <;>
      cases hpl : w.probe s.hosts.lmstudio "/v1/models" <;>
      by_cases hko : s.apiKeys.openai = "" <;>
      by_cases hkr : s.apiKeys.openrouter = "" <;>
      simp [detectProviderT, detectGo, DETECTION_CONFIG,
        PROVIDER_META, hostsGet, strTruthy, hpo, hpl, hko, hkr]

/-- Witness for C3 in a world where only the Ollama probe succeeds, with
auto mode: the detected provider is `ollama` and it is the one tried. -/
theorem claim_C3_witness :
    (detectProviderT wOllamaOk DEFAULT_SETTINGS).provider
        = detectionOrder.find? (specDetected wOllamaOk DEFAULT_SETTINGS) ∧
    (detectProviderT wOllamaOk DEFAULT_SETTINGS).provider = some .ollama ∧
    DEFAULT_SETTINGS.provider = .auto ∧
    (refineIntentionT wOllamaOk "today" DEFAULT_SETTINGS).genAttempts
        = [.ollama] :=
  ⟨(claim_C3 wOllamaOk DEFAULT_SETTINGS "today").1, by decide, rfl,
   (claim_C3 wOllamaOk DEFAULT_SETTINGS "today").2.2.2.2.2.2.2 .ollama rfl
     (by decide)⟩

/-- C4 concerns a missing-credential check the code does not perform: at
the failing input (explicit provider `openai`, empty `apiKeys.openai`)
the code attempts generation through the OpenAI SDK anyway (one recorded
generation attempt) and surfaces the wrapped provider error, not a
message naming the missing credential. -/
theorem claim_C4_code_eval :
    sOpenAIExplicit.apiKeys.openai = "" ∧
    (refineIntentionT wFail "today" sOpenAIExplicit).genAttempts
      = [.openai] ∧
    (refineIntentionT wFail "today" sOpenAIExplicit).res
      = .error "OpenAI error: boom" :=
  ⟨rfl, rfl, rfl⟩

/-- C5: with `provider = "auto"` and no provider override, a model
override is silently ignored: `applyOverrides(settings, { model })`
leaves every field of the `models` mapping unchanged — both in the
returned value and in the caller's settings record. -/
theorem claim_C5 (s : Settings) (m : String) (hauto : s.provider = .auto) :
    (applyOverrides s ⟨none, some m⟩).1.models = s.models ∧
    (applyOverrides s ⟨none, some m⟩).2 = s := by
  simp [applyOverrides, ovProviderTruthy, hauto]

/-- Witness for C5 at the default settings and the override model
`"custom"`. -/
theorem claim_C5_witness :
    DEFAULT_SETTINGS.provider = .auto ∧
    (applyOverrides DEFAULT_SETTINGS ⟨none, some "custom"⟩).1.models
        = DEFAULT_SETTINGS.models ∧
    (applyOverrides DEFAULT_SETTINGS ⟨none, some "custom"⟩).2
        = DEFAULT_SETTINGS :=
  ⟨rfl, claim_C5 DEFAULT_SETTINGS "custom" rfl⟩

/-- C6: `saveConfig` followed by `loadConfig` returns the saved settings
value exactly (its top-level fields shallow-merged over the defaults all
come from the saved file), and `loadConfig` on a malformed settings file
returns the compiled-in defaults entirely. -/
theorem claim_C6 (s : Settings) :
    loadConfig (saveConfig s) = s.toLoaded ∧
    loadConfig .malformed = DEFAULT_SETTINGS.toLoaded :=
  ⟨rfl, rfl⟩

/-- C9 as stated is false: JavaScript truthiness skips the model write
when the override's model is the empty string, so the caller's `models`
entry keeps its old value. -/
theorem claim_C9_counterexample :
    ¬ ((applyOverrides DEFAULT_SETTINGS
          ⟨some (.prov .ollama), some ""⟩).2.models.get .ollama = "") := by
  decide

/-- C9 (amended to non-empty model overrides): `applyOverrides` copies
only the top level, so for every override carrying a concrete provider
`p` and a non-empty model `m`, the returned value's `models` mapping is
the caller's own (mutated) `models` object, and after the call the input
settings themselves satisfy `models[p] = m`. -/
theorem claim_C9_amended (s : Settings) (p : Provider) (m : String)
    (hm : m ≠ "") :
    (applyOverrides s ⟨some (.prov p), some m⟩).1.models
        = (applyOverrides s ⟨some (.prov p), some m⟩).2.models ∧
    (applyOverrides s ⟨some (.prov p), some m⟩).2.models.get p = m := by
  have hmb : strTruthy m = true := by
    simp [strTruthy, hm]
  constructor
  · simp [applyOverrides, ovProviderTruthy, ovModelTruthy, hmb]
  · simp only [applyOverrides, ovProviderTruthy, ovModelTruthy, hmb]
    cases p <;> simp [modelsSet, Models.get]

/-- Witness for the amended C9 at the default settings, provider
`ollama`, model `"custom"`. -/
theorem claim_C9_amended_witness :
    ("custom" : String) ≠ "" ∧
    (applyOverrides DEFAULT_SETTINGS
        ⟨some (.prov .ollama), some "custom"⟩).1.models
      = (applyOverrides DEFAULT_SETTINGS
        ⟨some (.prov .ollama), some "custom"⟩).2.models ∧
    (applyOverrides DEFAULT_SETTINGS
        ⟨some (.prov .ollama), some "custom"⟩).2.models.get .ollama
      = "custom" :=
  ⟨by decide, claim_C9_amended DEFAULT_SETTINGS .ollama "custom" (by decide)⟩

/-- C10: `loadConfig` merges only at the top level: a top-level key bound
in the file to a partial object is taken exactly as stored, with no
nested backfilling; only an entirely absent top-level key receives the
default value. -/
theorem claim_C10 (t : StoredTop) :
    (∀ pm, t.models = some pm → (loadConfig (.content t)).models = pm) ∧
    (t.models = none →
      (loadConfig (.content t)).models = DEFAULT_SETTINGS.models.toPartial) := by
  constructor
  · intro pm hpm
    simp [loadConfig, hpm]
  · intro hnone
    simp [loadConfig, hnone]

/-- Witness for C10: a stored file whose `models` object names only
`ollama` loads with the partial object kept as-is — the `openrouter`
entry stays absent instead of being backfilled. -/
theorem claim_C10_witness :
    (loadConfig (.content
        ⟨none, some ⟨some "my-model", none, none, none⟩, none, none,
         none, none⟩)).models = ⟨some "my-model", none, none, none⟩ ∧
    (loadConfig (.content
        ⟨none, some ⟨some "my-model", none, none, none⟩, none, none,
         none, none⟩)).models.openrouter = none := by
  refine ⟨(claim_C10 _).1 _ rfl, ?_⟩
  rw [(claim_C10 _).1 _ rfl]

/-- C7: writing two entries in sequence stores them most-recent-first:
the first write produces a single trimmed entry, the second write
prepends its entry block to the existing content (never appends), the
resulting file has exactly one dated `## YYYY-MM-DD` header line per
entry, and the second entry's text appears before the first entry's
text. -/
theorem claim_C7 (t1 t2 d1 d2 : String)
    (h1ne : t1 ≠ "")
    (h1trim : t1.data.reverse.dropWhile isJsWS = t1.data.reverse)
    (hd1 : isDateL d1.data = true) (hd2 : isDateL d2.data = true)
    (hh1 : (linesOf t1).countP isHeaderLine = 0)
    (hh2 : (linesOf t2).countP isHeaderLine = 0) :
    writeTodayFile t1 d1 "" = "## " ++ d1 ++ "\n" ++ t1 ∧
    writeTodayFile t2 d2 (writeTodayFile t1 d1 "")
      = ("## " ++ d2 ++ "\n" ++ t2 ++ "\n\n") ++ writeTodayFile t1 d1 "" ∧
    headerCount (writeTodayFile t2 d2 (writeTodayFile t1 d1 "")) = 2 ∧
    ∃ l1 l2 : List Char,
      (writeTodayFile t2 d2 (writeTodayFile t1 d1 "")).data
        = l1 ++ (t2.data ++ (l2 ++ t1.data)) := by
  have ht1d : t1.data ≠ [] := fun hh => h1ne (String.ext hh)
  have hfirst : writeTodayFile t1 d1 "" = "## " ++ d1 ++ "\n" ++ t1 := by
    have hw : writeTodayFile t1 d1 ""
        = jsTrim ("## " ++ d1 ++ "\n" ++ t1 ++ "\n\n") := rfl
    refine String.ext ?_
    rw [hw]
    show trimChars ("## " ++ d1 ++ "\n" ++ t1 ++ "\n\n").data = _
    rw [entry_data, trimChars_entry d1.data t1.data h1trim ht1d,
      entry_data_trimmed]
  have hfirstne : writeTodayFile t1 d1 "" ≠ "" := by
    rw [hfirst]
    intro hh
    have hdd := congrArg String.data hh
    rw [entry_data_trimmed] at hdd
    exact List.noConfusion hdd
  have hsecond := writeTodayFile_nonempty t2 d2 (writeTodayFile t1 d1 "")
    hfirstne
  have hfinaldata : (writeTodayFile t2 d2 (writeTodayFile t1 d1 "")).data
      = (('#' :: '#' :: ' ' :: (d2.data ++ '\n' :: t2.data)) ++ ['\n', '\n'])
        ++ ('#' :: '#' :: ' ' :: (d1.data ++ '\n' :: t1.data)) := by
    rw [hsecond, String.data_append, entry_data, hfirst, entry_data_trimmed]
  refine ⟨hfirst, hsecond, ?_, ?_⟩
  · have hnllit : '\n' ∉ (['#', '#', ' '] : List Char) := by decide
    have hnl1 : '\n' ∉ ['#', '#', ' '] ++ d1.data := fun hm =>
      (List.mem_append.mp hm).elim (fun hA => hnllit hA)
        (fun hB => isDateL_no_newline d1.data hd1 hB)
    have hnl2 : '\n' ∉ ['#', '#', ' '] ++ d2.data := fun hm =>
      (List.mem_append.mp hm).elim (fun hA => hnllit hA)
        (fun hB => isDateL_no_newline d2.data hd2 hB)
    have hh1x : (splitLinesAux t1.data []).countP isHeaderLine = 0 := hh1
    have hh2x : (splitLinesAux t2.data []).countP isHeaderLine = 0 := hh2
    have hsplit : (writeTodayFile t2 d2 (writeTodayFile t1 d1 "")).data
        = (['#', '#', ' '] ++ d2.data) ++ '\n' :: (t2.data ++ '\n' ::
            (([] : List Char) ++ '\n' ::
              ((['#', '#', ' '] ++ d1.data) ++ '\n' :: t1.data))) := by
      rw [hfinaldata]
      simp [List.append_assoc]
    show (splitLinesAux
        (writeTodayFile t2 d2 (writeTodayFile t1 d1 "")).data []).countP
        isHeaderLine = 2
    rw [hsplit, splitLinesAux_append, splitLinesAux_append,
      splitLinesAux_append, splitLinesAux_append,
      splitLinesAux_no_newline _ [] hnl2, splitLinesAux_no_newline _ [] hnl1]
    simp [List.countP_append, List.countP_cons, splitLinesAux, hh1x, hh2x,
      isHeaderLine, hd1, hd2]
  · refine ⟨'#' :: '#' :: ' ' :: (d2.data ++ ['\n']),
      '\n' :: '\n' :: '#' :: '#' :: ' ' :: (d1.data ++ ['\n']), ?_⟩
    rw [hfinaldata]
    simp [List.append_assoc]

/-- Witness for C7 at two concrete entries. -/
theorem claim_C7_witness :
    (("alpha" : String) ≠ "" ∧
      ("alpha" : String).data.reverse.dropWhile isJsWS
        = ("alpha" : String).data.reverse ∧
      isDateL ("2026-10-10" : String).data = true ∧
      isDateL ("2026-10-11" : String).data = true ∧
      (linesOf "alpha").countP isHeaderLine = 0 ∧
      (linesOf "beta").countP isHeaderLine = 0) ∧
    (writeTodayFile "alpha" "2026-10-10" "" = "## 2026-10-10\nalpha" ∧
      headerCount (writeTodayFile "beta" "2026-10-11"
        (writeTodayFile "alpha" "2026-10-10" "")) = 2) := by
  have h := claim_C7 "alpha" "beta" "2026-10-10" "2026-10-11"
    (by decide) (by decide) (by decide) (by decide) (by decide) (by decide)
  exact ⟨⟨by decide, by decide, by decide, by decide, by decide, by decide⟩,
    h.1, h.2.2.1⟩

/-- C8: the main command body writes the output file only after a
successful generation: input that is empty after trimming is a no-op
success (exit code 0, `refineIntention` never called, file untouched),
and a thrown `refineIntention` error leaves the file untouched and exits
with status 1. -/
theorem claim_C8 (w : World) (config : Settings) (input date file : String) :
    (jsTrim input = "" →
      defaultCommand w config input date file = ⟨0, file, false⟩) ∧
    (jsTrim input ≠ "" → ∀ e, refineIntention w input config = .error e →
      defaultCommand w config input date file = ⟨1, file, true⟩) := by
  constructor
  · intro h
    simp [defaultCommand, strTruthy, h]
  · intro h e he
    simp [defaultCommand, strTruthy, h, he]

/-- Witness for C8: blank input is a no-op success, and with the default
settings in the all-failing world a non-empty input exits with status 1
leaving the file unchanged. -/
theorem claim_C8_witness :
    jsTrim "   " = "" ∧
    defaultCommand wFail DEFAULT_SETTINGS "   " "2026-10-11" "old"
      = ⟨0, "old", false⟩ ∧
    jsTrim "today" ≠ "" ∧
    refineIntention wFail "today" DEFAULT_SETTINGS
      = .error noProviderMsg ∧
    defaultCommand wFail DEFAULT_SETTINGS "today" "2026-10-11" "old"
      = ⟨1, "old", true⟩ := by
  have h1 := (claim_C8 wFail DEFAULT_SETTINGS "   " "2026-10-11" "old").1
    (by decide)
  have h2 := (claim_C8 wFail DEFAULT_SETTINGS "today" "2026-10-11" "old").2
    (by decide) noProviderMsg rfl
  exact ⟨by decide, h1, by decide, rfl, h2⟩

end Today
